import Mathlib

/-!
# Verification of the chip-8-emu-js interpreter

A shallow embedding of the CHIP-8 emulator sources (`src/cpu.js`,
`src/renderer.js`, `src/keyboard.js`, `src/chip8.js`) together with theorems
settling the specification claims about them.

JavaScript conventions reflected in the model:
* `Uint8Array` stores coerce the value modulo 256 and silently drop writes at
  out-of-range indices; out-of-range reads yield `undefined`, which is 0 in
  every numeric context the program uses (`<< 8`, `& 0x80`, store into a
  `Uint8Array`).  Byte arrays are `List Nat` and writes go through
  `jsByteWrite`.
* Plain JS `Array` writes grow the array; holes read back as `undefined`,
  observed by this program only numerically (as 0) or for truthiness
  (falsy).  The display is a `List Nat` with `jsArrSet` writes.
* The machine never throws except at the opcode dispatcher's `default`
  branch, so `executeInstruction` lives in `Except String`.
-/

/-- Machine state: the fields of the `CPU`, `Renderer` and `Keyboard`
objects that the program reads or writes.  `rand` is an oracle supplying the
`Math.floor(Math.random() * 0xFF)` draw of `Cxkk`.  `trace` is pure
instrumentation: it records the arguments of every `setPixel` call and is
touched by nothing else.  `onNextKeyPress` holds the register index captured
by the only callback the program ever installs (the `Fx0A` closure). -/
structure CPU where
  memory : List Nat
  v : List Nat
  i : Nat
  delayTimer : Nat
  soundTimer : Nat
  pc : Nat
  stack : List Nat
  paused : Bool
  speed : Nat
  display : List Nat
  keysPressed : List Bool
  onNextKeyPress : Option Nat
  rand : Nat
  trace : List (Int × Int)
  deriving Repr, DecidableEq

/-- `Uint8Array` store: coerce modulo 256 (two's complement for negative JS
numbers, hence `Int.emod`), drop the write when the index is out of range. -/
def jsByteWrite (l : List Nat) (idx : Nat) (val : Int) : List Nat :=
  if idx < l.length then l.set idx ((val % 256).toNat) else l

/-- Plain JS `Array` store: set in place, or grow the array, filling the gap
with holes (`undefined`, numerically 0 for this program's reads). -/
def jsArrSet (l : List Nat) (idx : Nat) (val : Nat) : List Nat :=
  if idx < l.length then l.set idx val
  else l ++ List.replicate (idx - l.length) 0 ++ [val]

/-- Plain JS `Array` store for the boolean `keysPressed` array; holes read
back falsy. -/
def jsArrSetB (l : List Bool) (idx : Nat) (val : Bool) : List Bool :=
  if idx < l.length then l.set idx val
  else l ++ List.replicate (idx - l.length) false ++ [val]

/-- `this.v[i]` (register read; the index is always a nibble, in range). -/
def getV (s : CPU) (idx : Nat) : Nat := s.v.getD idx 0

/-- `this.v[i] = val` through the `Uint8Array` semantics. -/
def setV (s : CPU) (idx : Nat) (val : Int) : CPU :=
  { s with v := jsByteWrite s.v idx val }

/-- The state built by the constructors: `new Uint8Array(16)` for memory
(the source comment says "4096 bytes of memory" but the allocation is 16),
`new Uint8Array(16)` registers, pc `0x200`, empty stack, speed 10, a
64 x 32 display (`new Array(this.cols * this.rows)`, holes read as 0), an
empty `keysPressed` array and no pending key-wait callback. -/
def initCPU : CPU where
  memory := List.replicate 16 0
  v := List.replicate 16 0
  i := 0
  delayTimer := 0
  soundTimer := 0
  pc := 0x200
  stack := []
  paused := false
  speed := 10
  display := List.replicate 2048 0
  keysPressed := []
  onNextKeyPress := none
  rand := 0
  trace := []

/-! ## Renderer (`src/renderer.js`) -/

/-- `Renderer.setPixel(x, y)` with `cols = 64`, `rows = 32`.  The wrap tests
are the source's strict comparisons (`x > this.cols`, `x < 0`).  A negative
`pixelLoc` would be a non-index object property in JS, invisible to the
numeric reads of `render`, so the model leaves the array unchanged there and
returns `false` (`!(undefined ^ 1)` is `!1`).  Returns the updated display
and the collision flag `!this.display[pixelLoc]`. -/
def setPixel (disp : List Nat) (x0 y0 : Int) : List Nat × Bool :=
  let x := if 64 < x0 then x0 - 64 else if x0 < 0 then x0 + 64 else x0
  let y := if 32 < y0 then y0 - 32 else if y0 < 0 then y0 + 32 else y0
  let pixelLoc := x + y * 64
  if 0 ≤ pixelLoc then
    let n := pixelLoc.toNat
    let val := Nat.xor (disp.getD n 0) 1
    (jsArrSet disp n val, val == 0)
  else (disp, false)

/-! ## Keyboard (`src/keyboard.js`) -/

/-- The `KEYMAP` object literal: physical key code to CHIP-8 key value. -/
def KEYMAP (which : Nat) : Option Nat :=
  match which with
  | 49 => some 0x1
  | 50 => some 0x2
  | 51 => some 0x3
  | 52 => some 0xC
  | 81 => some 0x4
  | 87 => some 0x5
  | 69 => some 0x6
  | 82 => some 0xD
  | 65 => some 0x7
  | 83 => some 0x8
  | 68 => some 0x9
  | 70 => some 0xE
  | 90 => some 0xA
  | 88 => some 0x0
  | 67 => some 0xB
  | 86 => some 0xF
  | _ => none

/-- `Keyboard.isKeyPressed(keyCode)`: truthiness of
`this.keysPressed[keyCode]` (a hole is `undefined`, falsy). -/
def isKeyPressed (s : CPU) (keyCode : Nat) : Bool :=
  s.keysPressed.getD keyCode false

/-- `Keyboard.onKeyDown(event)`.  For an unmapped code the source stores
`this.keysPressed[undefined] = true`, a non-index property with no numeric
effect, so the model is the identity there.  The guard is the source's
`if (this.onNextKeyPress !== null && key)`: `key` is tested for truthiness,
so the key value `0x0` never fires the callback.  The callback (installed
only by `Fx0A`) writes the key into the captured register, clears `paused`,
and is then cleared. -/
def onKeyDown (s : CPU) (which : Nat) : CPU :=
  match KEYMAP which with
  | none => s
  | some key =>
    let s := { s with keysPressed := jsArrSetB s.keysPressed key true }
    match s.onNextKeyPress with
    | some rx =>
      if key ≠ 0 then
        { setV s rx key with paused := false, onNextKeyPress := none }
      else s
    | none => s

/-! ## CPU instruction execution (`src/cpu.js`, `executeInstruction`) -/

/-- `case 0x0000` inner `switch (opcode)`: SYS (no-op), CLS, RET.  A `pop`
on an empty JS array yields `undefined`; no claim exercises that path and
the model reads 0 there. -/
def execGroup0 (s : CPU) (op : Nat) : CPU :=
  if op = 0x0000 then s
  else if op = 0x00E0 then { s with display := List.replicate 2048 0 }
  else if op = 0x00EE then
    { s with pc := (s.stack.getLast?).getD 0, stack := s.stack.dropLast }
  else s

/-- `case 0x8000` inner `switch (opcode & 0xF)`.  Each arm follows the
source statement by statement, because `Vx` and `VF` can alias.  In `8xy4`
the JS expression `const sum = (this.v[x] += this.v[y])` stores the wrapped
sum into `v[x]` while the expression value is the raw sum. -/
def execGroup8 (s : CPU) (op x y : Nat) : CPU :=
  let lo := op &&& 0xF
  if lo = 0x0 then setV s x (getV s y)
  else if lo = 0x1 then setV s x (getV s x ||| getV s y)
  else if lo = 0x2 then setV s x (getV s x &&& getV s y)
  else if lo = 0x3 then setV s x (getV s x ^^^ getV s y)
  else if lo = 0x4 then
    let sum := getV s x + getV s y
    let s := setV s x (sum : Nat)
    let s := setV s 0xF 0
    let s := if 0xFF < sum then setV s 0xF 1 else s
    setV s x (sum : Nat)
  else if lo = 0x5 then
    let s1 := setV s 0xF 0
    let s2 := if getV s1 y < getV s1 x then setV s1 0xF 1 else s1
    setV s2 x ((getV s2 x : Int) - (getV s2 y : Int))
  else if lo = 0x6 then
    let s1 := setV s 0xF (getV s x &&& 0x1 : Nat)
    setV s1 x (getV s1 x >>> 1 : Nat)
  else if lo = 0x7 then
    let s1 := setV s 0xF 0
    let s2 := if getV s1 x < getV s1 y then setV s1 0xF 1 else s1
    setV s2 x ((getV s2 y : Int) - (getV s2 x : Int))
  else if lo = 0xE then
    let s1 := setV s 0xF (getV s x &&& 0x80 : Nat)
    setV s1 x (getV s1 x <<< 1 : Nat)
  else s

/-- One column of the `Dxyn` inner loop.  The tested byte is the row's
`sprite` value as it stands during the column loop: the source's
`sprite <<= 1` sits after this loop (see `drawRow`), so the tested bit is
bit 7 for every column.  Both `setPixel` arguments are built from
`this.v[x]` (the source line is
`setPixel(this.v[x] + col, this.v[x] + row)`). -/
def colStep (x rowByte row : Nat) (s : CPU) (col : Nat) : CPU :=
  if 0 < rowByte &&& 0x80 then
    let px : Int := (getV s x : Int) + col
    let py : Int := (getV s x : Int) + row
    let r := setPixel s.display px py
    let s := { s with display := r.1, trace := s.trace ++ [(px, py)] }
    if r.2 then setV s 0xF 1 else s
  else s

/-- One row of `Dxyn`: read `sprite = this.memory[this.i + row]` (out of
range reads `undefined`, 0 under `& 0x80`), run the 8 columns.  The
source's `sprite <<= 1` executes here, after the column loop, and its
result dies with the per-row local, so it is a dead store. -/
def drawRow (x : Nat) (s : CPU) (row : Nat) : CPU :=
  let sprite := s.memory.getD (s.i + row) 0
  (List.range 8).foldl (colStep x sprite row) s

/-- The `Dxyn` row loop over `height` rows. -/
def drawSprite (s : CPU) (x height : Nat) : CPU :=
  (List.range height).foldl (drawRow x) s

/-- `case 0xD000`: width 8, `height = opcode & 0xF`, `VF = 0`, then the
row/column loops. -/
def execDraw (s : CPU) (op x : Nat) : CPU :=
  let height := op &&& 0xF
  drawSprite (setV s 0xF 0) x height

/-- `case 0xE000` inner `switch (opcode & 0xFF)`: SKP / SKNP. -/
def execGroupE (s : CPU) (op x : Nat) : CPU :=
  let lo := op &&& 0xFF
  if lo = 0x9E then
    if isKeyPressed s (getV s x) then { s with pc := s.pc + 2 } else s
  else if lo = 0xA1 then
    if isKeyPressed s (getV s x) then s else { s with pc := s.pc + 2 }
  else s

/-- `case 0xF000` inner `switch (opcode & 0xFF)`. -/
def execGroupF (s : CPU) (op x : Nat) : CPU :=
  let lo := op &&& 0xFF
  if lo = 0x07 then setV s x s.delayTimer
  else if lo = 0x0A then
    { s with paused := true, onNextKeyPress := some x }
  else if lo = 0x15 then { s with delayTimer := getV s x }
  else if lo = 0x18 then { s with soundTimer := getV s x }
  else if lo = 0x1E then { s with i := s.i + getV s x }
  else if lo = 0x29 then { s with i := getV s x * 5 }
  else if lo = 0x33 then
    let m1 := jsByteWrite s.memory s.i (getV s x / 100)
    let m2 := jsByteWrite m1 (s.i + 1) (getV s x % 100 / 10)
    let m3 := jsByteWrite m2 (s.i + 2) (getV s x % 10)
    { s with memory := m3 }
  else if lo = 0x55 then
    let m := (List.range (x + 1)).foldl
      (fun m ri => jsByteWrite m (s.i + ri) (getV s ri)) s.memory
    { s with memory := m }
  else if lo = 0x65 then
    let vv := (List.range (x + 1)).foldl
      (fun vv ri => jsByteWrite vv ri (s.memory.getD (s.i + ri) 0)) s.v
    { s with v := vv }
  else s

/-- The outer `switch (opcode & 0xF000)` of `executeInstruction`, applied
to the state as it stands after the pc increment, with the `x` and `y`
nibbles already extracted.  Only the `default` branch throws
(`Unknown opcode`). -/
def execDispatch (s : CPU) (op x y : Nat) : Except String CPU :=
  if op &&& 0xF000 = 0x0000 then .ok (execGroup0 s op)
  else if op &&& 0xF000 = 0x1000 then .ok { s with pc := op &&& 0xFFF }
  else if op &&& 0xF000 = 0x2000 then
    .ok { s with stack := s.stack ++ [s.pc], pc := op &&& 0xFFF }
  else if op &&& 0xF000 = 0x3000 then
    .ok (if getV s x = op &&& 0xFF then { s with pc := s.pc + 2 } else s)
  else if op &&& 0xF000 = 0x4000 then
    .ok (if getV s x = op &&& 0xFF then s else { s with pc := s.pc + 2 })
  else if op &&& 0xF000 = 0x5000 then
    .ok (if getV s x = getV s y then { s with pc := s.pc + 2 } else s)
  else if op &&& 0xF000 = 0x6000 then .ok (setV s x (op &&& 0xFF : Nat))
  else if op &&& 0xF000 = 0x7000 then
    .ok (setV s x (getV s x + (op &&& 0xFF) : Nat))
  else if op &&& 0xF000 = 0x8000 then .ok (execGroup8 s op x y)
  else if op &&& 0xF000 = 0x9000 then
    .ok (if getV s x = getV s y then s else { s with pc := s.pc + 2 })
  else if op &&& 0xF000 = 0xA000 then .ok { s with i := op &&& 0xFFF }
  else if op &&& 0xF000 = 0xB000 then
    .ok { s with pc := (op &&& 0xFFF) + getV s 0 }
  else if op &&& 0xF000 = 0xC000 then
    .ok (setV s x ((s.rand % 0xFF) &&& (op &&& 0xFF) : Nat))
  else if op &&& 0xF000 = 0xD000 then .ok (execDraw s op x)
  else if op &&& 0xF000 = 0xE000 then .ok (execGroupE s op x)
  else if op &&& 0xF000 = 0xF000 then .ok (execGroupF s op x)
  else .error "Unknown opcode"

/-- `CPU.executeInstruction(opcode)`: `this.pc += 2`, extract the `x` and
`y` nibbles, then dispatch. -/
def executeInstruction (s0 : CPU) (op : Nat) : Except String CPU :=
  execDispatch { s0 with pc := s0.pc + 2 } op ((op &&& 0x0F00) >>> 8)
    ((op &&& 0x00F0) >>> 4)

/-- `CPU.loadProgramIntoMemory(program)`: write each program byte at
`0x200 + loc` through the `Uint8Array` store. -/
def loadProgramIntoMemory (s : CPU) (program : List Nat) : CPU :=
  let m := (List.range program.length).foldl
    (fun m loc => jsByteWrite m (0x200 + loc) (program.getD loc 0)) s.memory
  { s with memory := m }

/-- `CPU.updateTimers()`: decrement each nonzero timer. -/
def updateTimers (s : CPU) : CPU :=
  let s := if 0 < s.delayTimer then { s with delayTimer := s.delayTimer - 1 } else s
  if 0 < s.soundTimer then { s with soundTimer := s.soundTimer - 1 } else s

/-- One iteration of the `cycle` loop body: when not paused, fetch
`(memory[pc] << 8) | memory[pc + 1]` (out-of-range reads are `undefined`,
0 under the shift and or) and execute it.  A thrown error propagates. -/
def fetchExec (s : CPU) : Except String CPU :=
  if s.paused then .ok s
  else executeInstruction s
    (((s.memory.getD s.pc 0) <<< 8) ||| s.memory.getD (s.pc + 1) 0)

/-- The `for (let i = 0; i < this.speed; i++)` loop of `cycle`. -/
def cycleN : Nat → CPU → Except String CPU
  | 0, s => .ok s
  | n + 1, s => (fetchExec s).bind (cycleN n)

/-- `CPU.cycle()`: run `speed` loop iterations, then
`if (!this.paused) this.updateTimers()`.  `playSound()` and
`renderer.render()` touch only the speaker and the canvas, none of the
modelled state. -/
def cycle (s : CPU) : Except String CPU :=
  (cycleN s.speed s).map (fun t => if t.paused then t else updateTimers t)

/-! ## Host frame loop (`src/chip8.js`) -/

/-- `fps = 60`. -/
def fps : Nat := 60

/-- The gate of `step()`: `elapsed = now - then; if (elapsed > fpsInterval)
cpu.cycle()`.  `fpsInterval = 1000 / fps` is a float, but on the integer
millisecond values of `Date.now()` the comparison `elapsed > 1000 / 60`
holds exactly when `60 * elapsed > 1000`. -/
def stepProcesses (thenT now : Nat) : Bool := 1000 < fps * (now - thenT)

/-- The ticks at which `step()` runs `cpu.cycle()`, given the `then`
timestamp recorded by `init()`.  `step()` never reassigns `then`, so every
tick is compared against the same init-time value. -/
def processedTicks (thenT : Nat) (ticks : List Nat) : List Nat :=
  ticks.filter (fun t => stepProcesses thenT t)

/-! ## Specification-side definitions -/

/-- The dispatch groups of `executeInstruction`'s outer switch: the values
of `opcode & 0xF000` that have a case label. -/
def definedGroup (op : Nat) : Prop :=
  (op &&& 0xF000) ∈ ([0x0000, 0x1000, 0x2000, 0x3000, 0x4000, 0x5000, 0x6000,
    0x7000, 0x8000, 0x9000, 0xA000, 0xB000, 0xC000, 0xD000, 0xE000,
    0xF000] : List Nat)

/-- `executeInstruction` terminated with a thrown error. -/
def isFailure : Except String CPU → Bool
  | .error _ => true
  | .ok _ => false

/-- Decidability of the dispatch-group membership. -/
instance (op : Nat) : Decidable (definedGroup op) := by
  unfold definedGroup
  infer_instance

/-- An opcode that selects the `0x0000`, `0x8000`, `0xE000` or `0xF000`
dispatch group but matches none of that group's inner case labels. -/
def fallsThrough (op : Nat) : Prop :=
  (op &&& 0xF000 = 0x0000 ∧ op ∉ ([0x0000, 0x00E0, 0x00EE] : List Nat)) ∨
  (op &&& 0xF000 = 0x8000 ∧
    (op &&& 0xF) ∉ ([0x0, 0x1, 0x2, 0x3, 0x4, 0x5, 0x6, 0x7, 0xE] : List Nat)) ∨
  (op &&& 0xF000 = 0xE000 ∧ (op &&& 0xFF) ∉ ([0x9E, 0xA1] : List Nat)) ∨
  (op &&& 0xF000 = 0xF000 ∧
    (op &&& 0xFF) ∉ ([0x07, 0x0A, 0x15, 0x18, 0x1E, 0x29, 0x33, 0x55,
      0x65] : List Nat))

/-- Decidability of the fall-through condition. -/
instance (op : Nat) : Decidable (fallsThrough op) := by
  unfold fallsThrough
  infer_instance

/-- The `setPixel` calls a `Dxyn` draw makes per the source loops: for each
row whose sprite byte has bit 7 set, one call per column offset 0..7, both
coordinates from register `x`. -/
def rowCalls (s : CPU) (x row : Nat) : List (Int × Int) :=
  if 0 < (s.memory.getD (s.i + row) 0) &&& 0x80 then
    (List.range 8).map (fun col => ((getV s x : Int) + col, (getV s x : Int) + row))
  else []

/-- All `setPixel` calls of a `Dxyn` draw of the given height. -/
def spriteCalls (s : CPU) (x : Nat) : Nat → List (Int × Int)
  | 0 => []
  | h + 1 => spriteCalls s x h ++ rowCalls s x h

/-! ## Helper lemmas -/

theorem getD_set_self (l : List Nat) (i a : Nat) (h : i < l.length) :
    (l.set i a).getD i 0 = a := by
  induction l generalizing i with
  | nil => simp at h
  | cons hd tl ih =>
    cases i with
    | zero => simp
    | succ i => simpa using ih i (by simpa using h)

theorem getD_set_ne (l : List Nat) (i j a : Nat) (h : i ≠ j) :
    (l.set i a).getD j 0 = l.getD j 0 := by
  induction l generalizing i j with
  | nil => simp
  | cons hd tl ih =>
    cases i with
    | zero =>
      cases j with
      | zero => exact absurd rfl h
      | succ j => simp
    | succ i =>
      cases j with
      | zero => simp
      | succ j => simpa using ih i j (by omega)

theorem get?_set_self (l : List Nat) (i a : Nat) (h : i < l.length) :
    (l.set i a).get? i = some a := by
  induction l generalizing i with
  | nil => simp at h
  | cons hd tl ih =>
    cases i with
    | zero => rfl
    | succ i => simpa using ih i (by simpa using h)

theorem getD_replicate (n c i : Nat) :
    (List.replicate n c).getD i 0 = if i < n then c else 0 := by
  induction n generalizing i with
  | zero => simp
  | succ n ih =>
    cases i with
    | zero => simp
    | succ i =>
      rw [List.replicate_succ]
      simp only [List.getD_cons_succ]
      rw [ih i]
      simp [Nat.succ_lt_succ_iff]

theorem getD_jsArrSet_self (l : List Nat) (i val : Nat) (h : i < l.length) :
    (jsArrSet l i val).getD i 0 = val := by
  unfold jsArrSet
  rw [if_pos h]
  exact getD_set_self _ _ _ h

theorem getD_jsArrSet_ne (l : List Nat) (i j val : Nat) (hij : i ≠ j)
    (h : i < l.length) : (jsArrSet l i val).getD j 0 = l.getD j 0 := by
  unfold jsArrSet
  rw [if_pos h]
  exact getD_set_ne _ _ _ _ hij

theorem setV_v_length (s : CPU) (i : Nat) (val : Int) :
    (setV s i val).v.length = s.v.length := by
  unfold setV jsByteWrite
  dsimp only
  split <;> simp

theorem getV_setV_self (s : CPU) (i : Nat) (val : Int) (h : i < s.v.length) :
    getV (setV s i val) i = (val % 256).toNat := by
  unfold getV setV jsByteWrite
  dsimp only
  rw [if_pos h]
  exact getD_set_self _ _ _ h

theorem getV_setV_ne (s : CPU) (i j : Nat) (val : Int) (h : i ≠ j) :
    getV (setV s i val) j = getV s j := by
  unfold getV setV jsByteWrite
  dsimp only
  split
  · exact getD_set_ne _ _ _ _ h
  · rfl

theorem natByte (n : Nat) : (((n : Int)) % 256).toNat = n % 256 := by omega

theorem nibbleX_lt (op : Nat) : (op &&& 0x0F00) >>> 8 < 16 := by
  have h1 : op &&& 0x0F00 ≤ 0x0F00 := Nat.and_le_right
  have h2 : (op &&& 0x0F00) >>> 8 = (op &&& 0x0F00) / 2 ^ 8 :=
    Nat.shiftRight_eq_div_pow _ _
  have h3 : (op &&& 0x0F00) / 2 ^ 8 ≤ 0x0F00 / 2 ^ 8 :=
    Nat.div_le_div_right h1
  norm_num at h3
  omega

theorem fetchExec_paused (s : CPU) (h : s.paused = true) :
    fetchExec s = .ok s := by
  simp [fetchExec, h]

theorem cycleN_paused (n : Nat) (s : CPU) (h : s.paused = true) :
    cycleN n s = .ok s := by
  induction n with
  | zero => rfl
  | succ n ih =>
    show (fetchExec s).bind (cycleN n) = .ok s
    rw [fetchExec_paused s h]
    exact ih

/-- `opcode & 0xF000` always lands on one of the sixteen case labels: its
low twelve bits are clear and it is at most `0xF000`. -/
theorem maskHighNibble (op : Nat) :
    op &&& 0xF000 = 0x0000 ∨ op &&& 0xF000 = 0x1000 ∨ op &&& 0xF000 = 0x2000 ∨
    op &&& 0xF000 = 0x3000 ∨ op &&& 0xF000 = 0x4000 ∨ op &&& 0xF000 = 0x5000 ∨
    op &&& 0xF000 = 0x6000 ∨ op &&& 0xF000 = 0x7000 ∨ op &&& 0xF000 = 0x8000 ∨
    op &&& 0xF000 = 0x9000 ∨ op &&& 0xF000 = 0xA000 ∨ op &&& 0xF000 = 0xB000 ∨
    op &&& 0xF000 = 0xC000 ∨ op &&& 0xF000 = 0xD000 ∨ op &&& 0xF000 = 0xE000 ∨
    op &&& 0xF000 = 0xF000 := by
  have hlit : (0xF000 : Nat) &&& 0xFFF = 0 := by decide
  have h1 : (op &&& 0xF000) &&& 0xFFF = 0 := by
    rw [Nat.and_assoc, hlit, Nat.and_zero]
  have h2 : (op &&& 0xF000) &&& 0xFFF = (op &&& 0xF000) % 4096 := by
    have hp : (0xFFF : Nat) = 2 ^ 12 - 1 := by norm_num
    rw [hp, Nat.and_pow_two_sub_one_eq_mod]
  have h3 : op &&& 0xF000 ≤ 0xF000 := Nat.and_le_right
  omega

theorem colStep_spec (x rowByte row : Nat) (hx : x ≠ 15) (s : CPU) (col : Nat) :
    (colStep x rowByte row s col).trace
      = s.trace ++ (if 0 < rowByte &&& 0x80
          then [((getV s x : Int) + col, (getV s x : Int) + row)] else [])
    ∧ getV (colStep x rowByte row s col) x = getV s x
    ∧ (colStep x rowByte row s col).memory = s.memory
    ∧ (colStep x rowByte row s col).i = s.i := by
  unfold colStep
  by_cases hb : 0 < rowByte &&& 0x80
  · simp only [hb, if_true]
    refine ⟨?_, ?_, ?_, ?_⟩
    · split <;> rfl
    · split
      · rw [getV_setV_ne _ _ _ _ (Ne.symm hx)]
        rfl
      · rfl
    · split <;> rfl
    · split <;> rfl
  · simp [hb]

theorem colFold_spec (x rowByte row : Nat) (hx : x ≠ 15) (cols : List Nat) :
    ∀ s : CPU,
    ((cols.foldl (colStep x rowByte row) s).trace
      = s.trace ++ (if 0 < rowByte &&& 0x80
          then cols.map
            (fun col => ((getV s x : Int) + col, (getV s x : Int) + row))
          else []))
    ∧ getV (cols.foldl (colStep x rowByte row) s) x = getV s x
    ∧ (cols.foldl (colStep x rowByte row) s).memory = s.memory
    ∧ (cols.foldl (colStep x rowByte row) s).i = s.i := by
  induction cols with
  | nil => intro s; simp
  | cons c cs ih =>
    intro s
    obtain ⟨t1, t2, t3, t4⟩ := colStep_spec x rowByte row hx s c
    obtain ⟨g1, g2, g3, g4⟩ := ih (colStep x rowByte row s c)
    rw [List.foldl_cons]
    refine ⟨?_, ?_, ?_, ?_⟩
    · rw [g1, t2, t1]
      by_cases hb : 0 < rowByte &&& 0x80 <;> simp [hb]
    · rw [g2, t2]
    · rw [g3, t3]
    · rw [g4, t4]

theorem drawRow_spec (x : Nat) (hx : x ≠ 15) (s : CPU) (row : Nat) :
    (drawRow x s row).trace = s.trace ++ rowCalls s x row
    ∧ getV (drawRow x s row) x = getV s x
    ∧ (drawRow x s row).memory = s.memory
    ∧ (drawRow x s row).i = s.i := by
  unfold drawRow rowCalls
  exact colFold_spec x (s.memory.getD (s.i + row) 0) row hx (List.range 8) s

theorem spriteCalls_congr (s t : CPU) (x : Nat) (hm : t.memory = s.memory)
    (hi : t.i = s.i) (hv : getV t x = getV s x) :
    ∀ h : Nat, spriteCalls t x h = spriteCalls s x h := by
  intro h
  induction h with
  | zero => rfl
  | succ n ih =>
    show spriteCalls t x n ++ rowCalls t x n
        = spriteCalls s x n ++ rowCalls s x n
    rw [ih]
    unfold rowCalls
    rw [hm, hi, hv]

theorem drawSprite_spec (x : Nat) (hx : x ≠ 15) (s : CPU) (h : Nat) :
    (drawSprite s x h).trace = s.trace ++ spriteCalls s x h
    ∧ getV (drawSprite s x h) x = getV s x
    ∧ (drawSprite s x h).memory = s.memory
    ∧ (drawSprite s x h).i = s.i := by
  induction h with
  | zero => simp [drawSprite, spriteCalls]
  | succ n ih =>
    obtain ⟨g1, g2, g3, g4⟩ := ih
    have hstep : drawSprite s x (n + 1) = drawRow x (drawSprite s x n) n := by
      unfold drawSprite
      rw [List.range_succ, List.foldl_append, List.foldl_cons, List.foldl_nil]
    obtain ⟨t1, t2, t3, t4⟩ := drawRow_spec x hx (drawSprite s x n) n
    have hrc : rowCalls (drawSprite s x n) x n = rowCalls s x n := by
      unfold rowCalls
      rw [g2, g3, g4]
    refine ⟨?_, ?_, ?_, ?_⟩
    · rw [hstep, t1, g1, hrc]
      show _ = s.trace ++ (spriteCalls s x n ++ rowCalls s x n)
      rw [List.append_assoc]
    · rw [hstep, t2, g2]
    · rw [hstep, t3, g3]
    · rw [hstep, t4, g4]

theorem execDraw_trace (s : CPU) (op x : Nat) (hx : x ≠ 15) :
    (execDraw s op x).trace = s.trace ++ spriteCalls s x (op &&& 0xF) := by
  unfold execDraw
  obtain ⟨g1, g2, g3, g4⟩ := drawSprite_spec x hx (setV s 0xF 0) (op &&& 0xF)
  rw [g1]
  have hc : spriteCalls (setV s 0xF 0) x (op &&& 0xF)
      = spriteCalls s x (op &&& 0xF) :=
    spriteCalls_congr s (setV s 0xF 0) x rfl rfl
      (getV_setV_ne s 15 x 0 (Ne.symm hx)) (op &&& 0xF)
  rw [hc]
  rfl

theorem execInstr_draw_trace (s : CPU) (op x : Nat)
    (hop : op &&& 0xF000 = 0xD000) (hx : x = (op &&& 0x0F00) >>> 8)
    (hxF : x ≠ 15) :
    (executeInstruction s op).map CPU.trace
      = .ok (s.trace ++ spriteCalls s x (op &&& 0xF)) := by
  subst hx
  unfold executeInstruction execDispatch
  rw [hop]
  norm_num [Except.map]
  rw [execDraw_trace _ op _ hxF]
  have hc : spriteCalls { s with pc := s.pc + 2 } ((op &&& 0x0F00) >>> 8)
        (op &&& 0xF)
      = spriteCalls s ((op &&& 0x0F00) >>> 8) (op &&& 0xF) :=
    spriteCalls_congr s { s with pc := s.pc + 2 } _ rfl rfl rfl (op &&& 0xF)
  rw [hc]

theorem execGroup8_add (s : CPU) (op x y : Nat) (hop4 : op &&& 0xF = 0x4)
    (hx16 : x < 16) (hxF : x ≠ 15) (hlen : s.v.length = 16) :
    getV (execGroup8 s op x y) x = (getV s x + getV s y) % 256 ∧
    getV (execGroup8 s op x y) 0xF
      = if 0xFF < getV s x + getV s y then 1 else 0 := by
  unfold execGroup8
  rw [hop4]
  norm_num
  constructor
  · by_cases hsum : (0xFF : Nat) < getV s x + getV s y
    · rw [if_pos hsum,
        getV_setV_self _ _ _ (by simp only [setV_v_length, hlen]; omega)]
      exact natByte _
    · rw [if_neg hsum,
        getV_setV_self _ _ _ (by simp only [setV_v_length, hlen]; omega)]
      exact natByte _
  · by_cases hsum : (0xFF : Nat) < getV s x + getV s y
    · rw [if_pos hsum, if_pos hsum, getV_setV_ne _ _ _ _ hxF,
        getV_setV_self _ _ _ (by simp only [setV_v_length, hlen]; omega)]
      decide
    · rw [if_neg hsum, if_neg hsum, getV_setV_ne _ _ _ _ hxF,
        getV_setV_self _ _ _ (by simp only [setV_v_length, hlen]; omega)]
      decide

/-- Loading a one-byte program into a memory longer than 0x200 stores the
byte (mod 256) at 0x200; stated over an abstract memory list. -/
theorem load_single (mem : List Nat) (b : Nat) (h : 0x200 < mem.length) :
    (loadProgramIntoMemory { initCPU with memory := mem } [b]).memory.get? 0x200
      = some (b % 256) := by
  unfold loadProgramIntoMemory
  dsimp only
  rw [show List.range ([b] : List Nat).length = [0] from rfl,
    List.foldl_cons, List.foldl_nil]
  show (jsByteWrite mem (0x200 + 0) ((([b] : List Nat).getD 0 0 : Nat) : Int)).get?
      0x200 = some (b % 256)
  unfold jsByteWrite
  rw [if_pos (by omega : (0x200 + 0 : Nat) < mem.length)]
  rw [show ((([b] : List Nat).getD 0 0 : Nat) : Int) = (b : Int) from rfl, natByte]
  rw [show (0x200 + 0 : Nat) = 0x200 from rfl]
  exact get?_set_self _ _ _ h

/-- `setPixel(64, 10)` on an abstract display: x = 64 is not wrapped
(the test is strict), so the XOR lands at index 64 + 10*64 = 704. -/
theorem setPixel_64_10 (disp : List Nat) :
    setPixel disp 64 10
      = (jsArrSet disp 704 (Nat.xor (disp.getD 704 0) 1),
          Nat.xor (disp.getD 704 0) 1 == 0) := rfl

/-- `setPixel(0, 10)` on an abstract display XORs index 640. -/
theorem setPixel_0_10 (disp : List Nat) :
    setPixel disp 0 10
      = (jsArrSet disp 640 (Nat.xor (disp.getD 640 0) 1),
          Nat.xor (disp.getD 640 0) 1 == 0) := rfl

/-- `setPixel(-1, 10)` and `setPixel(63, 10)` coincide on every display:
x = -1 is wrapped to 63 and both XOR index 703. -/
theorem setPixel_neg1_63 (disp : List Nat) :
    setPixel disp (-1) 10 = setPixel disp 63 10 := rfl

/-- On a display whose cell 704 is clear, `setPixel(64, 10)` sets it. -/
theorem setPixel_64_10_sets (disp : List Nat) (h : 704 < disp.length)
    (hd : disp.getD 704 0 = 0) : (setPixel disp 64 10).1.getD 704 0 = 1 := by
  rw [setPixel_64_10, hd]
  exact getD_jsArrSet_self _ _ _ h

/-- `setPixel(0, 10)` leaves cell 704 alone. -/
theorem setPixel_0_10_misses (disp : List Nat) (h : 640 < disp.length)
    (hd : disp.getD 704 0 = 0) : (setPixel disp 0 10).1.getD 704 0 = 0 := by
  rw [setPixel_0_10]
  show (jsArrSet disp 640 (Nat.xor (disp.getD 640 0) 1)).getD 704 0 = 0
  rw [getD_jsArrSet_ne _ _ _ _ (by norm_num) h]
  exact hd

/-- On a display whose cell 640 is clear, `setPixel(0, 10)` sets it. -/
theorem setPixel_0_10_sets (disp : List Nat) (h : 640 < disp.length)
    (hd : disp.getD 640 0 = 0) : (setPixel disp 0 10).1.getD 640 0 = 1 := by
  rw [setPixel_0_10, hd]
  exact getD_jsArrSet_self _ _ _ h

/-! ## Claim theorems -/

/-- Claim C1 (code bug): `loadProgramIntoMemory` is meant to copy the
program into memory starting at 0x200, and does with the documented
4096-byte memory, but the constructor allocates `new Uint8Array(16)`, so
every write at `0x200 + loc` is out of range and silently dropped: memory
is unchanged and `memory[0x200]` reads `undefined`, not the program byte.
With a 4096-entry memory the same routine stores the byte as the claim
states. -/
theorem c1_program_load_dropped :
    (loadProgramIntoMemory initCPU [0xAB]).memory = initCPU.memory ∧
    (loadProgramIntoMemory initCPU [0xAB]).memory.get? 0x200 = none ∧
    (loadProgramIntoMemory { initCPU with memory := List.replicate 4096 0 }
        [0xAB]).memory.get? 0x200 = some 0xAB := by
  refine ⟨rfl, rfl, ?_⟩
  have h := load_single (List.replicate 4096 0) 0xAB
    (by rw [List.length_replicate]; norm_num)
  rw [h]

/-- Claim C2 (code bug): because `sprite <<= 1` sits after the column loop,
`Dxyn` tests bit 7 of the row byte for every column.  Drawing the one-row
sprite `0x01` (only bit 0 set) makes no `setPixel` call at all, though the
claim requires exactly one call at column offset 7; drawing `0x80` (only
bit 7 set) makes eight calls, though the claim requires exactly one at
offset 0. -/
theorem c2_sprite_shift_outside_loop :
    (executeInstruction { initCPU with memory := 0x01 :: List.replicate 15 0 }
        0xD001).map CPU.trace = .ok [] ∧
    (executeInstruction { initCPU with memory := 0x80 :: List.replicate 15 0 }
        0xD001).map CPU.trace
      = .ok [(0, 0), (1, 0), (2, 0), (3, 0), (4, 0), (5, 0), (6, 0), (7, 0)] := by
  constructor
  · rw [execInstr_draw_trace _ 0xD001 0 (by decide) (by decide) (by decide)]
    rfl
  · rw [execInstr_draw_trace _ 0xD001 0 (by decide) (by decide) (by decide)]
    rfl

/-- Claim C3 (code bug): the wrap test is the strict `x > this.cols`, so
`setPixel(64, 10)` leaves x = 64 and XORs display index 64 + 10*64 = 704
(the cell of (0, 11)), while `setPixel(0, 10)` XORs index 640: from the
same empty framebuffer the two results differ, refuting the claimed
equivalence.  The negative-side pair `setPixel(-1, 10)` = `setPixel(63, 10)`
does hold. -/
theorem c3_wrap_off_by_one :
    (setPixel (List.replicate 2048 0) 64 10).1.getD 704 0 = 1 ∧
    (setPixel (List.replicate 2048 0) 0 10).1.getD 704 0 = 0 ∧
    (setPixel (List.replicate 2048 0) 0 10).1.getD 640 0 = 1 ∧
    setPixel (List.replicate 2048 0) (-1) 10
      = setPixel (List.replicate 2048 0) 63 10 := by
  have hlen704 : (704 : Nat) < (List.replicate 2048 (0 : Nat)).length := by
    rw [List.length_replicate]; norm_num
  have hlen640 : (640 : Nat) < (List.replicate 2048 (0 : Nat)).length := by
    rw [List.length_replicate]; norm_num
  have hr704 : (List.replicate 2048 (0 : Nat)).getD 704 0 = 0 := by
    rw [getD_replicate]; norm_num
  have hr640 : (List.replicate 2048 (0 : Nat)).getD 640 0 = 0 := by
    rw [getD_replicate]; norm_num
  exact ⟨setPixel_64_10_sets _ hlen704 hr704,
    setPixel_0_10_misses _ hlen640 hr704,
    setPixel_0_10_sets _ hlen640 hr640, setPixel_neg1_63 _⟩

/-- Claim C4 (code bug): `step()` never reassigns `then`, so the gate
compares every tick against the init timestamp.  With `then = 0`, the
ticks at 17 ms and 18 ms are both processed although only 1 ms separates
them; had the gate measured from the previous processed frame
(`then = 17`), the 18 ms tick would have been skipped, as
`stepProcesses 17 18 = false` shows. -/
theorem c4_frame_gate_since_init :
    processedTicks 0 [17, 18] = [17, 18] ∧ stepProcesses 17 18 = false :=
  ⟨rfl, rfl⟩

/-- Claim C5 (code bug): after `Fx0A` (here `0xF20A`, register 2) paused
the machine, the key-down with physical code 88 maps to key value `0x0`
(`KEYMAP[88] = 0x0`), but the guard `onNextKeyPress !== null && key`
treats the key value 0 as falsy: the callback does not run, the machine
stays paused and the callback stays registered, contradicting the claim
for k = 0. -/
theorem c5_key_zero_not_resolving :
    KEYMAP 88 = some 0x0 ∧
    (executeInstruction initCPU 0xF20A).map
        (fun s => ((onKeyDown s 88).paused, (onKeyDown s 88).onNextKeyPress))
      = .ok (true, some 2) :=
  ⟨rfl, rfl⟩

/-- Claim C6 (corrected): for every state with `register[x] = a` and
`register[y] = b` and `x ≠ 0xF`, executing `8xy4` leaves
`register[x] = (a + b) % 256` and `register[0xF] = 1` exactly when
`a + b > 255` (else 0).  The exclusion of `x = 0xF` is forced by
`c6_vf_overwritten`: there the final store of the sum lands on the flag
register and overwrites the carry. -/
theorem c6_add_carry (s : CPU) (op x y a b : Nat)
    (hop8 : op &&& 0xF000 = 0x8000) (hop4 : op &&& 0xF = 0x4)
    (hx : x = (op &&& 0x0F00) >>> 8) (hy : y = (op &&& 0x00F0) >>> 4)
    (hxF : x ≠ 0xF) (hlen : s.v.length = 16)
    (ha : getV s x = a) (hb : getV s y = b) :
    (executeInstruction s op).map (fun t => (getV t x, getV t 0xF))
      = .ok ((a + b) % 256, if 0xFF < a + b then 1 else 0) := by
  subst hx; subst hy; subst ha; subst hb
  have hx16 : (op &&& 0x0F00) >>> 8 < 16 := nibbleX_lt op
  unfold executeInstruction execDispatch
  rw [hop8]
  norm_num [Except.map]
  obtain ⟨e1, e2⟩ :=
    execGroup8_add { s with pc := s.pc + 2 } op ((op &&& 0x0F00) >>> 8)
      ((op &&& 0x00F0) >>> 4) hop4 hx16 hxF hlen
  rw [e1, e2]
  exact ⟨rfl, rfl⟩

/-- Counterexample to C6 as stated: with `register[0xF] = 2` and
`register[0] = 3`, opcode `0x8F04` (x = 0xF) ends with
`register[0xF] = 5`, while the claim predicts the carry flag
`if 2 + 3 > 255 then 1 else 0 = 0`. -/
theorem c6_vf_overwritten :
    (executeInstruction
        { initCPU with v := [3, 0, 0, 0, 0, 0, 0, 0, 0, 0, 0, 0, 0, 0, 0, 2] }
        0x8F04).map (fun t => getV t 0xF) = .ok 5 ∧
    (if 0xFF < (2 + 3 : Nat) then (1 : Nat) else 0) = 0 :=
  ⟨rfl, rfl⟩

/-- Witness for C6 at `0x8014` (x = 0, y = 1) with a = 200, b = 100. -/
theorem c6_add_carry_witness :
    getV { initCPU with
        v := [200, 100, 0, 0, 0, 0, 0, 0, 0, 0, 0, 0, 0, 0, 0, 7] } 0 = 200 ∧
    (executeInstruction { initCPU with
          v := [200, 100, 0, 0, 0, 0, 0, 0, 0, 0, 0, 0, 0, 0, 0, 7] }
        0x8014).map (fun t => (getV t 0, getV t 0xF))
      = .ok ((200 + 100) % 256, if 0xFF < (200 + 100 : Nat) then 1 else 0) :=
  ⟨rfl,
    c6_add_carry _ 0x8014 0 1 200 100 rfl rfl (by decide) (by decide)
      (by decide) rfl rfl rfl⟩

/-- Claim C7: every `setPixel` call of a `Dxyn` draw uses the row-origin
register for both axes: with `x` the register index from the opcode
(and `x ≠ 0xF`, so that the collision writes to `VF` do not alias it), the
calls are exactly `(register[x] + col, register[x] + row)` over the rows
whose sprite byte has bit 7 set — `register[y]` is unused for the vertical
origin, reproducing the acknowledged-faithful pairing. -/
theorem c7_draw_same_origin (s : CPU) (op x : Nat)
    (hop : op &&& 0xF000 = 0xD000) (hx : x = (op &&& 0x0F00) >>> 8)
    (hxF : x ≠ 15) :
    (executeInstruction s op).map CPU.trace
      = .ok (s.trace ++ spriteCalls s x (op &&& 0xF)) :=
  execInstr_draw_trace s op x hop hx hxF

/-- Witness for C7: a one-row draw of sprite byte `0x80` at opcode
`0xD001`. -/
theorem c7_draw_same_origin_witness :
    (0xD001 &&& 0xF000 = 0xD000) ∧ ((0 : Nat) = (0xD001 &&& 0x0F00) >>> 8) ∧
    ((0 : Nat) ≠ 15) ∧
    (executeInstruction { initCPU with memory := 0x80 :: List.replicate 15 0 }
        0xD001).map CPU.trace
      = .ok (({ initCPU with
            memory := 0x80 :: List.replicate 15 0 } : CPU).trace
          ++ spriteCalls { initCPU with memory := 0x80 :: List.replicate 15 0 }
            0 (0xD001 &&& 0xF)) :=
  ⟨by decide, by decide, by decide,
    c7_draw_same_origin _ 0xD001 0 (by decide) (by decide) (by decide)⟩

/-- Claim C8: when the paused flag is set, `cycle()` fetches and executes
no instruction and skips `updateTimers()`: the program counter, the
registers, I, memory, the call stack and both timers are unchanged. -/
theorem c8_paused_cycle_noop (s : CPU) (h : s.paused = true) :
    (cycle s).map
        (fun t => (t.pc, t.v, t.i, t.memory, t.stack, t.delayTimer, t.soundTimer))
      = .ok (s.pc, s.v, s.i, s.memory, s.stack, s.delayTimer, s.soundTimer) := by
  simp [cycle, cycleN_paused s.speed s h, h, Except.map]

/-- Witness for C8 at a concrete paused state. -/
theorem c8_paused_cycle_noop_witness :
    ({ initCPU with paused := true } : CPU).paused = true ∧
    (cycle { initCPU with paused := true }).map
        (fun t => (t.pc, t.v, t.i, t.memory, t.stack, t.delayTimer, t.soundTimer))
      = .ok (initCPU.pc, initCPU.v, initCPU.i, initCPU.memory, initCPU.stack,
          initCPU.delayTimer, initCPU.soundTimer) :=
  ⟨rfl, c8_paused_cycle_noop { initCPU with paused := true } rfl⟩

/-- Claim C9: `executeInstruction` throws the unknown-opcode failure
exactly when `opcode & 0xF000` carries none of the sixteen case labels of
the dispatcher.  The labels cover every value `opcode & 0xF000` can take
(`maskHighNibble`), so both sides are false for every opcode and no input
reaches the `throw`; were one thrown, the model's `cycleN` propagates the
`Except.error` through `bind`, halting the remaining loop iterations
rather than skipping the failure. -/
theorem c9_unknown_opcode_iff (s : CPU) (op : Nat) :
    isFailure (executeInstruction s op) = true ↔ ¬ definedGroup op := by
  have hd : definedGroup op := by
    unfold definedGroup
    rcases maskHighNibble op with
      h | h | h | h | h | h | h | h | h | h | h | h | h | h | h | h <;>
      simp [h]
  have hok : isFailure (executeInstruction s op) = false := by
    unfold executeInstruction execDispatch
    rcases maskHighNibble op with
      h | h | h | h | h | h | h | h | h | h | h | h | h | h | h | h <;>
      rw [h] <;> norm_num [isFailure]
  simp [hok, hd]

/-- Claim C10: an opcode selecting the 0x0000, 0x8000, 0xE000 or 0xF000
group whose low bits match none of that group's case labels falls through
the inner switch: no failure is raised, and the only state change is the
pc increment by 2 done before the dispatch. -/
theorem c10_fallthrough_pc_only (s : CPU) (op : Nat) (h : fallsThrough op) :
    executeInstruction s op = .ok { s with pc := s.pc + 2 } := by
  unfold executeInstruction
  generalize { s with pc := s.pc + 2 } = t
  unfold execDispatch
  rcases h with ⟨h1, h2⟩ | ⟨h1, h2⟩ | ⟨h1, h2⟩ | ⟨h1, h2⟩ <;>
    simp only [List.mem_cons, List.not_mem_nil, or_false, not_or] at h2 <;>
    simp [execGroup0, execGroup8, execGroupE, execGroupF, h1, h2]

/-- Witness for C10 at opcode `0x8128` (an `8xy8`, unlisted in the 0x8000
group). -/
theorem c10_fallthrough_pc_only_witness :
    fallsThrough 0x8128 ∧
    executeInstruction initCPU 0x8128
      = .ok { initCPU with pc := initCPU.pc + 2 } :=
  ⟨by decide, c10_fallthrough_pc_only initCPU 0x8128 (by decide)⟩
